import Mathlib

/-!
Verification of the group/server administration services of mysql-fabric
(module `lib/mysql/hub/services/server.py`).

The handlers registered on the events (`_lookup_groups`, `_create_group`,
`_remove_group`, `_lookup_servers`, `_create_server`, `_remove_server`,
`_do_remove_server`) are embedded below as executable Lean functions over an
explicit fleet state.  The persistence layer (`mysql.hub.server`: `Group`,
`MySQLServer`, `ConnectionPool`), the failure detector registry, and the
executor/command layer (`mysql.hub.command`, `mysql.hub.executor`) are not part
of the sources; those parts are modelled from the specification, and each such
definition is marked `Modelled from the spec:` in its doc comment.
-/

namespace Fabric

/-- A server UUID, modelled as its sequence of hexadecimal digits.  A real
RFC-4122 UUID has 32 digits; theorems that depend on the textual form carry
that length as a hypothesis. -/
abbrev UUID := List (Fin 16)

/-- Lower-case hexadecimal digit character. -/
def hexChar (n : Fin 16) : Char :=
  if n.val < 10 then Char.ofNat (48 + n.val) else Char.ofNat (87 + n.val)

/-- The character list of the dashed textual form of a UUID
(`8-4-4-4-12` hex digits), as produced by Python's `str(uuid.UUID(...))`. -/
def uuidChars (u : UUID) : List Char :=
  (u.take 8).map hexChar ++ ('-' ::
    (((u.drop 8).take 4).map hexChar ++ ('-' ::
      (((u.drop 12).take 4).map hexChar ++ ('-' ::
        (((u.drop 16).take 4).map hexChar ++ ('-' ::
          (u.drop 20).map hexChar)))))))

/-- The dashed textual form of a UUID. -/
def uuidStr (u : UUID) : String :=
  String.mk (uuidChars u)

/-- Modelled from the spec: a live MySQL instance reachable at some address;
`mysql.hub.server.MySQLServer.discover_uuid` / `connect` read its uuid,
version and privileges.  The driver itself is out of scope. -/
structure LiveServer where
  uuid : UUID
  version : Nat × Nat × Nat
  rootPrivileges : Bool
  deriving DecidableEq, Repr

/-- Modelled from the spec: the persistent record of a registered server
(`mysql.hub.server.MySQLServer`).  A server belongs to at most one group,
recorded in `groupId`. -/
structure ServerRec where
  uuid : UUID
  address : String
  user : String
  passwd : String
  connected : Bool
  groupId : Option String
  deriving DecidableEq, Repr

/-- Modelled from the spec: the persistent record of a group
(`mysql.hub.server.Group`): id, description, optional master. -/
structure GroupRec where
  group_id : String
  description : Option String
  master : Option UUID
  deriving DecidableEq, Repr

/-- Modelled from the spec: the durable fleet state plus the registries the
handlers touch: group and server records, the connection-pool entries
(server uuid paired with a connection count), the set of groups registered
with the failure detector, and the live instances indexed by address. -/
structure FabricState where
  groups : List GroupRec
  servers : List ServerRec
  pool : List (UUID × Nat)
  detectorGroups : List String
  live : List (String × LiveServer)
  deriving DecidableEq, Repr

/-- The error kinds raised by the handlers (`mysql.hub.errors`). -/
inductive FabricError where
  | GroupError (msg : String)
  | ServerError (msg : String)
  | PersistenceError (msg : String)
  deriving DecidableEq, Repr

/-! ### Persistence-layer operations (modelled from the spec) -/

/-- Modelled from the spec: `Group.fetch(group_id)` — find the group record. -/
def Group_fetch (st : FabricState) (group_id : String) : Option GroupRec :=
  st.groups.find? (fun g => g.group_id = group_id)

/-- Modelled from the spec: `group.servers()` — the registered servers that
belong to the group. -/
def Group_servers (st : FabricState) (g : GroupRec) : List ServerRec :=
  st.servers.filter (fun s => s.groupId = some g.group_id)

/-- Modelled from the spec: `group.contains_server(uuid)`. -/
def Group_containsServer (st : FabricState) (g : GroupRec) (u : UUID) : Bool :=
  (Group_servers st g).any (fun s => s.uuid = u)

/-- Modelled from the spec: `Group.add(group_id, description)` — insert a new
group record; duplicate ids are a persistence error (§4.A `AlreadyExists`). -/
def Group_add (st : FabricState) (group_id : String) (description : Option String) :
    Except FabricError (FabricState × GroupRec) :=
  if st.groups.any (fun g => g.group_id = group_id) then
    .error (.PersistenceError ("Group (" ++ group_id ++ ") already exists."))
  else
    let g : GroupRec := ⟨group_id, description, none⟩
    .ok ({ st with groups := st.groups ++ [g] }, g)

/-- Modelled from the spec: `group.remove()` — delete the group record. -/
def Group_remove (st : FabricState) (group_id : String) : FabricState :=
  { st with groups := st.groups.filter (fun g => ¬ g.group_id = group_id) }

/-- Modelled from the spec: `group.add_server(server)` — record that the
server belongs to the group. -/
def Group_addServer (st : FabricState) (group_id : String) (u : UUID) : FabricState :=
  { st with servers := st.servers.map (fun s => if s.uuid = u then { s with groupId := some group_id } else s) }

/-- Modelled from the spec: `group.remove_server(server)` — record that the
server no longer belongs to any group. -/
def Group_removeServer (st : FabricState) (u : UUID) : FabricState :=
  { st with servers := st.servers.map (fun s => if s.uuid = u then { s with groupId := none } else s) }

/-- Modelled from the spec: `MySQLServer.fetch(uuid)`. -/
def MySQLServer_fetch (st : FabricState) (u : UUID) : Option ServerRec :=
  st.servers.find? (fun s => s.uuid = u)

/-- Modelled from the spec: `MySQLServer.add(uuid, address, user, passwd)` —
insert a new server record, not yet connected and not yet in any group;
a duplicate uuid is a persistence error (§4.A `AlreadyExists`). -/
def MySQLServer_add (st : FabricState) (u : UUID) (address user passwd : String) :
    Except FabricError FabricState :=
  if st.servers.any (fun s => s.uuid = u) then
    .error (.PersistenceError ("Server (" ++ uuidStr u ++ ") already exists."))
  else
    .ok { st with servers :=
      st.servers ++ [⟨u, address, user, passwd, false, none⟩] }

/-- Modelled from the spec: `MySQLServer.remove()` — delete the record. -/
def MySQLServer_remove (st : FabricState) (u : UUID) : FabricState :=
  { st with servers := st.servers.filter (fun s => ¬ s.uuid = u) }

/-- Modelled from the spec: `MySQLServer.discover_uuid(address, user, passwd)`
— reach the live instance at the address and read its identity. -/
def discover_live (st : FabricState) (address : String) : Option LiveServer :=
  (st.live.find? (fun p => p.1 = address)).map (fun p => p.2)

/-- Modelled from the spec: `server.connect()` — mark the record connected. -/
def Server_connect (st : FabricState) (u : UUID) : FabricState :=
  { st with servers := st.servers.map (fun s => if s.uuid = u then { s with connected := true } else s) }

/-- Modelled from the spec: `server.disconnect()`. -/
def Server_disconnect (st : FabricState) (u : UUID) : FabricState :=
  { st with servers := st.servers.map (fun s => if s.uuid = u then { s with connected := false } else s) }

/-- Modelled from the spec: `server.check_version_compat((5,6,8))` — the
server's version is at least the given minimum, compared lexicographically. -/
def checkVersionCompat (v : Nat × Nat × Nat) (m : Nat × Nat × Nat) : Bool :=
  decide (m.1 < v.1 ∨ (m.1 = v.1 ∧ (m.2.1 < v.2.1 ∨
    (m.2.1 = v.2.1 ∧ m.2.2 ≤ v.2.2))))

/-- The textual form of a server version, as in the error message. -/
def versionStr (v : Nat × Nat × Nat) : String :=
  toString v.1 ++ "." ++ toString v.2.1 ++ "." ++ toString v.2.2

/-- Modelled from the spec: `ConnectionPool().purge_connections(uuid)` —
empty the pool entries of the server. -/
def purgeConnections (st : FabricState) (u : UUID) : FabricState :=
  { st with pool := st.pool.filter (fun p => ¬ p.1 = u) }

/-- Modelled from the spec: `FailureDetector.register_group(group_id)`. -/
def detectorRegister (st : FabricState) (group_id : String) : FabricState :=
  { st with detectorGroups := group_id :: st.detectorGroups }

/-- Modelled from the spec: `FailureDetector.unregister_group(group_id)`. -/
def detectorUnregister (st : FabricState) (group_id : String) : FabricState :=
  { st with detectorGroups :=
      st.detectorGroups.filter (fun g => ¬ g = group_id) }

/-! ### The handlers of `services/server.py` -/

/-- Result of the `_lookup_groups` handler: either the listing of all groups
(id and description) or the record of a single group. -/
inductive GroupsResult where
  | list (rows : List (String × String))
  | single (group_id : String) (description : String)
  deriving DecidableEq, Repr

/-- Result of the `_lookup_servers` handler: either the rows
`[str(uuid), address, group.master == uuid]` or the single-server record
`{"uuid", "address", "user", "passwd"}`. -/
inductive ServersResult where
  | list (rows : List (String × String × Bool))
  | single (uuid address user passwd : String)
  deriving DecidableEq, Repr

/-- Modelled from the spec: `Group.groups()` — the listing of group records
(id and description, an absent description listed as the empty string). -/
def Group_groups (st : FabricState) : List (String × String) :=
  st.groups.map (fun g => (g.group_id, g.description.getD ""))

/-- Handler `_lookup_groups(group_id)` of `services/server.py`. -/
def _lookup_groups (st : FabricState) (group_id : Option String) :
    Except FabricError GroupsResult :=
  match group_id with
  | none => .ok (.list (Group_groups st))
  | some gid =>
    match Group_fetch st gid with
    | none => .error (.GroupError ("Group (" ++ gid ++ ") does not exist."))
    | some g => .ok (.single g.group_id (g.description.getD ""))

/-- Handler `_create_group(group_id, description)` of `services/server.py`:
insert the group record, then register it with the failure detector. -/
def _create_group (st : FabricState) (group_id : String)
    (description : Option String) : Except FabricError FabricState :=
  match Group_add st group_id description with
  | .error e => .error e
  | .ok (st', _g) => .ok (detectorRegister st' group_id)

/-- The row `(str(server.uuid), server.address, group.master == server.uuid)`
of the `_lookup_servers` listing. -/
def serverRow (g : GroupRec) (s : ServerRec) : String × String × Bool :=
  (uuidStr s.uuid, s.address, decide (g.master = some s.uuid))

/-- Handler `_lookup_servers(group_id, uuid)` of `services/server.py`. -/
def _lookup_servers (st : FabricState) (group_id : String) (uuid : Option UUID) :
    Except FabricError ServersResult :=
  match Group_fetch st group_id with
  | none => .error (.GroupError ("Group (" ++ group_id ++ ") does not exist."))
  | some g =>
    match uuid with
    | none => .ok (.list ((Group_servers st g).map (serverRow g)))
    | some u =>
      if Group_containsServer st g u then
        match MySQLServer_fetch st u with
        | none => .error (.PersistenceError "missing server record")
        | some s => .ok (.single (uuidStr s.uuid) s.address s.user s.passwd)
      else
        .error (.GroupError ("Group (" ++ group_id ++
          ") does not contain server (" ++ uuidStr u ++ ")."))

/-- Handler `_create_server(group_id, address, user, passwd)` of
`services/server.py`: discover the live server's uuid, check the group exists
and does not already contain it, persist the record, connect, refuse an
outdated version, warn and disconnect when root privileges are missing, and
finally add the server to the group. -/
def _create_server (st : FabricState) (group_id address user passwd : String) :
    Except FabricError FabricState :=
  match discover_live st address with
  | none => .error (.ServerError ("Server (" ++ address ++ ") is not reachable."))
  | some live =>
    match Group_fetch st group_id with
    | none => .error (.GroupError ("Group (" ++ group_id ++ ") does not exist."))
    | some g =>
      if Group_containsServer st g live.uuid then
        .error (.ServerError ("Server (" ++ uuidStr live.uuid ++
          ") already exists in group (" ++ group_id ++ ")."))
      else
        match MySQLServer_add st live.uuid address user passwd with
        | .error e => .error e
        | .ok st₁ =>
          let st₂ := Server_connect st₁ live.uuid
          if ¬ checkVersionCompat live.version (5, 6, 8) then
            .error (.ServerError ("Server (" ++ uuidStr live.uuid ++
              ") has an outdated version (" ++ versionStr live.version ++
              "). 5.6.8 or greater is required."))
          else
            let st₃ :=
              if ¬ live.rootPrivileges then Server_disconnect st₂ live.uuid
              else st₂
            .ok (Group_addServer st₃ group_id live.uuid)

/-- Helper `_do_remove_server(group, server)` of `services/server.py`:
detach the server from the group, then delete its record. -/
def _do_remove_server (st : FabricState) (u : UUID) : FabricState :=
  MySQLServer_remove (Group_removeServer st u) u

/-- Handler `_remove_server(group_id, uuid)` of `services/server.py`:
check the group exists and contains the server, refuse to remove the
group's master, then remove the server and purge its pool entries. -/
def _remove_server (st : FabricState) (group_id : String) (u : UUID) :
    Except FabricError FabricState :=
  match Group_fetch st group_id with
  | none => .error (.GroupError ("Group (" ++ group_id ++ ") does not exist."))
  | some g =>
    if ¬ Group_containsServer st g u then
      .error (.GroupError ("Group (" ++ group_id ++
        ") does not contain server (" ++ uuidStr u ++ ")."))
    else if g.master = some u then
      .error (.ServerError ("Cannot remove server (" ++ uuidStr u ++
        "), which is master in group (" ++ group_id ++
        "). Please, demote it first."))
    else
      match MySQLServer_fetch st u with
      | none => .error (.PersistenceError "missing server record")
      | some s =>
        .ok (purgeConnections (_do_remove_server st s.uuid) s.uuid)

/-- The loop of `_remove_group` over the group's servers: collect each
server's uuid and call `_do_remove_server` on it, in listing order. -/
def removeServersLoop : FabricState → List ServerRec → FabricState × List UUID
  | st, [] => (st, [])
  | st, s :: rest =>
    let res := removeServersLoop (_do_remove_server st s.uuid) rest
    (res.1, s.uuid :: res.2)

/-- Handler `_remove_group(group_id, force)` of `services/server.py`:
fail when the group does not exist; when it has servers and `force` is set
remove each of them via `_do_remove_server`, otherwise fail when it has
servers; then delete the group record, purge the pool entries of each removed
server, and unregister the group from the failure detector. -/
def _remove_group (st : FabricState) (group_id : String) (force : Bool) :
    Except FabricError FabricState :=
  match Group_fetch st group_id with
  | none => .error (.GroupError ("Group (" ++ group_id ++ ") does not exist."))
  | some g =>
    let servers := Group_servers st g
    if ¬ servers.isEmpty ∧ force then
      let res := removeServersLoop st servers
      let st'' := Group_remove res.1 group_id
      let st''' := res.2.foldl purgeConnections st''
      .ok (detectorUnregister st''' group_id)
    else if ¬ servers.isEmpty then
      .error (.GroupError ("Group (" ++ group_id ++ ") is not empty."))
    else
      let st'' := Group_remove st group_id
      .ok (detectorUnregister st'' group_id)

/-! ### Executor and command layer (modelled from the spec) -/

/-- Modelled from the spec: one row of a procedure's status log.  The
executor appends a `success=true` row after a handler commits and a
`success=false` row carrying the diagnosis after a handler raises. -/
structure StatusRow where
  state : String
  success : Bool
  description : String
  diagnosis : String
  deriving DecidableEq, Repr

/-- The human-readable diagnosis of an error. -/
def renderError : FabricError → String
  | .GroupError m => m
  | .ServerError m => m
  | .PersistenceError m => m

/-- Modelled from the spec: the executor runs one job — a handler inside one
transaction.  On success it commits the new state; on an exception it rolls
the transaction back (the state is unchanged) and records the diagnosis. -/
def runJob (h : FabricState → Except FabricError FabricState)
    (st : FabricState) (action : String) : FabricState × StatusRow :=
  match h st with
  | .ok st' =>
    (st', ⟨"COMPLETE", true, "Executed action (" ++ action ++ ").", ""⟩)
  | .error e =>
    (st, ⟨"COMPLETE", false, "Tried to execute action (" ++ action ++ ").",
      renderError e⟩)

/-- Modelled from the spec: a procedure — its uuid and its status log. -/
structure Procedure where
  puuid : UUID
  log : List StatusRow
  deriving DecidableEq, Repr

/-- A procedure succeeded when every status row reports success. -/
def procedureSuccess (p : Procedure) : Bool :=
  p.log.all (fun r => r.success)

/-- Modelled from the spec: run a single-job procedure: execute the handler
as one job and record the resulting status row as the procedure's log. -/
def runProcedure (puuid : UUID)
    (h : FabricState → Except FabricError FabricState)
    (st : FabricState) (action : String) : Procedure × FabricState :=
  let (st', row) := runJob h st action
  (⟨puuid, [row]⟩, st')

/-- A dynamically-typed RPC argument value: boolean, integer or string. -/
inductive PyVal where
  | bool (b : Bool)
  | int (n : Int)
  | str (s : String)
  deriving DecidableEq, Repr

/-- Python's `str()` of an RPC argument value. -/
def pyStr : PyVal → String
  | .bool true => "True"
  | .bool false => "False"
  | .int n => toString n
  | .str s => s

/-- ASCII upper-casing of a string, as Python's `str.upper` performs on the
values at hand. -/
def upperStr (s : String) : String :=
  String.mk (s.toList.map Char.toUpper)

/-- Modelled from the spec: the predicate `ProcedureCommand` applies to its
`synchronous` argument, missing from the sources; its behaviour is fixed by
`lib/tests/test_command.py` (`test_procedure_return`): the argument is
stringified and upper-cased, and only `"FALSE"` and `"0"` select asynchronous
execution — every other value, `"abc"` included, selects synchronous
execution. -/
def isSynchronous (v : PyVal) : Bool :=
  ¬ (upperStr (pyStr v) = "FALSE" ∨ upperStr (pyStr v) = "0")

/-- The predicate for `synchronous` as the specification words it: the
case-insensitive strings `true`/`false`, the integers `1`/`0` and the
booleans are accepted, anything else is a usage error (`none`). -/
def specSynchronous : PyVal → Option Bool
  | .bool b => some b
  | .int n => if n = 1 then some true else if n = 0 then some false else none
  | .str s =>
    if upperStr s = "TRUE" then some true
    else if upperStr s = "FALSE" then some false
    else none

/-- What a procedure-typed command returns: the triple
`(procedure_uuid, status_log, final_bool)` when synchronous, the procedure
uuid alone when asynchronous. -/
inductive ProcResult where
  | sync (puuid : String) (log : List StatusRow) (final : Bool)
  | async (puuid : String)
  deriving DecidableEq, Repr

/-- Modelled from the spec: `ProcedureCommand.wait_for_procedures` — when the
`synchronous` argument selects synchronous execution, await the procedure and
return its uuid string, status log and final outcome; otherwise return the
uuid string alone. -/
def waitForProcedures (p : Procedure) (synchronous : PyVal) : ProcResult :=
  if isSynchronous synchronous then
    .sync (uuidStr p.puuid) p.log (procedureSuccess p)
  else
    .async (uuidStr p.puuid)

/-! ### The RFC-4122 textual format check of the tests -/

/-- A word character in the sense of the tests' regular expression `\w`. -/
def isWordChar (c : Char) : Bool :=
  c.isAlphanum || c = '_'

/-- Consume exactly `n` word characters. -/
def matchRun : Nat → List Char → Option (List Char)
  | 0, rest => some rest
  | _ + 1, [] => none
  | n + 1, c :: rest => if isWordChar c then matchRun n rest else none

/-- Consume a dash. -/
def matchDash : List Char → Option (List Char)
  | '-' :: rest => some rest
  | _ => none

/-- The check the tests perform on a returned procedure uuid:
`re.compile('\w{8}(-\w{4}){3}-\w{12}').match(s)` succeeds. -/
def checkUuidFormat (s : String) : Bool :=
  (Option.bind (matchRun 8 s.toList) (fun r =>
    Option.bind (matchDash r) (fun r =>
    Option.bind (matchRun 4 r) (fun r =>
    Option.bind (matchDash r) (fun r =>
    Option.bind (matchRun 4 r) (fun r =>
    Option.bind (matchDash r) (fun r =>
    Option.bind (matchRun 4 r) (fun r =>
    Option.bind (matchDash r) (matchRun 12))))))))).isSome

/-! ### Concrete fixtures used to instantiate the theorems -/

/-- A concrete 32-digit uuid. -/
def wUuid : UUID := List.replicate 32 (0 : Fin 16)

/-- A second concrete 32-digit uuid. -/
def wUuid2 : UUID := (1 : Fin 16) :: List.replicate 31 (0 : Fin 16)

/-- A live instance with a recent version and root privileges. -/
def wLiveOk : LiveServer := ⟨wUuid, (5, 6, 10), true⟩

/-- A live instance with an outdated version. -/
def wLiveOld : LiveServer := ⟨wUuid2, (5, 5, 0), true⟩

/-- A live instance with a recent version but no root privileges. -/
def wLiveNoRoot : LiveServer := ⟨wUuid2, (5, 6, 12), false⟩

/-- A fleet with the empty group `G1` and three reachable instances. -/
def wStBase : FabricState :=
  { groups := [⟨"G1", some "d", none⟩], servers := [], pool := [],
    detectorGroups := ["G1"],
    live := [("a1", wLiveOk), ("a2", wLiveOld), ("a3", wLiveNoRoot)] }

/-- The fleet after `group.add("G1", "a1")` on `wStBase`. -/
def wStOne : FabricState :=
  { wStBase with servers := [⟨wUuid, "a1", "root", "pw", true, some "G1"⟩] }

/-- A fleet in which `wUuid` is a member and the master of `G1`. -/
def wStMaster : FabricState :=
  { groups := [⟨"G1", some "d", some wUuid⟩],
    servers := [⟨wUuid, "a1", "root", "pw", true, some "G1"⟩],
    pool := [(wUuid, 2)], detectorGroups := ["G1"],
    live := [("a1", wLiveOk)] }

end Fabric

namespace Fabric

/-! ### Helper lemmas -/

/-- Search via `find?` skips a prefix in which nothing matches. -/
theorem find?_append_of_none {α : Type} (p : α → Bool) (A B : List α)
    (h : A.find? p = none) : (A ++ B).find? p = B.find? p := by
  induction A with
  | nil => simp
  | cons a A ih =>
    rcases List.find?_eq_none.mp h a (by simp) with hpa
    simp only [List.cons_append, List.find?_cons_of_neg _ hpa]
    exact ih (by rw [List.find?_cons_of_neg _ hpa] at h; exact h)

/-- Updating the records whose uuid is `u` touches only the appended record
when the prefix holds no record with uuid `u`. -/
theorem map_update_append (A : List ServerRec) (r : ServerRec) (u : UUID)
    (g : ServerRec → ServerRec) (hr : r.uuid = u)
    (hA : A.any (fun s => s.uuid = u) = false) :
    (A ++ [r]).map (fun s => if s.uuid = u then g s else s) = A ++ [g r] := by
  rw [List.map_append]
  have h1 : A.map (fun s => if s.uuid = u then g s else s) = A := by
    have := List.any_eq_false.mp hA
    calc A.map (fun s => if s.uuid = u then g s else s) = A.map id := by
          apply List.map_congr_left
          intro s hs
          simp [if_neg (by simpa using this s hs)]
      _ = A := List.map_id A
  rw [h1]
  simp [hr]

/-! ### Claims -/

/-- C1: for every group `G` and server uuid `u` such that `u` is the master of
`G` (and, per invariant I2, a member of `G`), `group.remove(G, u)` fails: the
handler raises a `ServerError`, the executor rolls the job back so the state
is unchanged and the status row reports `success=false`, and `u` is still
contained in `G` afterwards. -/
theorem master_cannot_be_removed (st : FabricState) (gid : String) (u : UUID)
    (g : GroupRec) (hg : Group_fetch st gid = some g)
    (hc : Group_containsServer st g u = true) (hm : g.master = some u) :
    _remove_server st gid u = .error (.ServerError ("Cannot remove server ("
      ++ uuidStr u ++ "), which is master in group (" ++ gid ++
      "). Please, demote it first."))
    ∧ (runJob (fun s => _remove_server s gid u) st "_remove_server").1 = st
    ∧ (runJob (fun s => _remove_server s gid u) st "_remove_server").2.success
        = false
    ∧ Group_containsServer
        ((runJob (fun s => _remove_server s gid u) st "_remove_server").1) g u
        = true := by
  have herr : _remove_server st gid u = .error (.ServerError
      ("Cannot remove server (" ++ uuidStr u ++ "), which is master in group ("
        ++ gid ++ "). Please, demote it first.")) := by
    unfold _remove_server
    rw [hg]
    simp [hc, hm]
  refine ⟨herr, ?_, ?_, ?_⟩ <;> simp [runJob, herr, hc]

/-- Witness for C1 at a concrete fleet in which `wUuid` is the member and the
master of group `G1`. -/
theorem master_cannot_be_removed_witness :
    _remove_server wStMaster "G1" wUuid = .error (.ServerError
      ("Cannot remove server (" ++ uuidStr wUuid ++
        "), which is master in group (G1). Please, demote it first."))
    ∧ (runJob (fun s => _remove_server s "G1" wUuid) wStMaster
        "_remove_server").1 = wStMaster
    ∧ (runJob (fun s => _remove_server s "G1" wUuid) wStMaster
        "_remove_server").2.success = false
    ∧ Group_containsServer
        ((runJob (fun s => _remove_server s "G1" wUuid) wStMaster
          "_remove_server").1) ⟨"G1", some "d", some wUuid⟩ wUuid = true := by
  have h := master_cannot_be_removed wStMaster "G1" wUuid
    ⟨"G1", some "d", some wUuid⟩ (by decide) (by decide) (by decide)
  simpa using h

/-- Every hexadecimal digit character is a word character. -/
theorem isWordChar_hexChar (d : Fin 16) : isWordChar (hexChar d) = true := by
  revert d
  decide

/-- The matcher `matchRun` consumes exactly the rendering of a digit list. -/
theorem matchRun_map_hexChar (l : List (Fin 16)) (rest : List Char) :
    matchRun l.length (l.map hexChar ++ rest) = some rest := by
  induction l with
  | nil => simp [matchRun]
  | cons d l ih =>
    simp [matchRun, isWordChar_hexChar d, ih]

/-- The matcher `matchRun` consumes the rendering of a digit list of the given length. -/
theorem matchRun_map_hexChar' (n : Nat) (l : List (Fin 16))
    (hl : l.length = n) (rest : List Char) :
    matchRun n (l.map hexChar ++ rest) = some rest := by
  subst hl
  exact matchRun_map_hexChar l rest

/-- The matcher `matchRun` consumes the rendering of a digit list exactly. -/
theorem matchRun_map_hexChar_nil (n : Nat) (l : List (Fin 16))
    (hl : l.length = n) : matchRun n (l.map hexChar) = some [] := by
  rw [← List.append_nil (l.map hexChar)]
  exact matchRun_map_hexChar' n l hl []

/-- The dashed rendering of a 32-digit uuid passes the tests' RFC-4122
format check `\w{8}(-\w{4}){3}-\w{12}`. -/
theorem checkUuidFormat_uuidStr (u : UUID) (hlen : u.length = 32) :
    checkUuidFormat (uuidStr u) = true := by
  have h8 : (u.take 8).length = 8 := by simp [hlen]
  have h12a : ((u.drop 8).take 4).length = 4 := by simp [hlen]
  have h12b : ((u.drop 12).take 4).length = 4 := by simp [hlen]
  have h12c : ((u.drop 16).take 4).length = 4 := by simp [hlen]
  have h20 : (u.drop 20).length = 12 := by simp [hlen]
  have htl : (uuidStr u).toList = uuidChars u := rfl
  unfold checkUuidFormat
  rw [htl]
  unfold uuidChars
  rw [matchRun_map_hexChar' 8 (u.take 8) h8]
  simp only [Option.some_bind, matchDash]
  rw [matchRun_map_hexChar' 4 ((u.drop 8).take 4) h12a]
  simp only [Option.some_bind, matchDash]
  rw [matchRun_map_hexChar' 4 ((u.drop 12).take 4) h12b]
  simp only [Option.some_bind, matchDash]
  rw [matchRun_map_hexChar' 4 ((u.drop 16).take 4) h12c]
  simp only [Option.some_bind, matchDash]
  rw [matchRun_map_hexChar_nil 12 (u.drop 20) h20]
  rfl

/-- C4: a procedure-typed command run with a synchronous `synchronous`
argument returns the triple `(procedure_uuid, status_log, final_bool)` —
the uuid string passing the RFC-4122 format check and `final_bool` true
exactly when the handler committed — and run asynchronously it returns the
procedure uuid string alone. -/
theorem procedure_command_return_shape (puuid : UUID)
    (hlen : puuid.length = 32)
    (h : FabricState → Except FabricError FabricState) (st : FabricState)
    (action : String) (v : PyVal) :
    checkUuidFormat (uuidStr puuid) = true
    ∧ (isSynchronous v = true →
        waitForProcedures (runProcedure puuid h st action).1 v =
          .sync (uuidStr puuid) (runProcedure puuid h st action).1.log
            (procedureSuccess (runProcedure puuid h st action).1))
    ∧ (isSynchronous v = false →
        waitForProcedures (runProcedure puuid h st action).1 v =
          .async (uuidStr puuid))
    ∧ (procedureSuccess (runProcedure puuid h st action).1 = true ↔
        ∃ st', h st = .ok st') := by
  refine ⟨checkUuidFormat_uuidStr puuid hlen, ?_, ?_, ?_⟩
  · intro hv
    simp [waitForProcedures, hv, runProcedure, runJob]
  · intro hv
    simp [waitForProcedures, hv, runProcedure, runJob]
  · cases hres : h st with
    | ok st' =>
      simp [runProcedure, runJob, hres, procedureSuccess]
    | error e =>
      simp [runProcedure, runJob, hres, procedureSuccess]

/-- Witness for C4 at a concrete uuid, handler, state and argument. -/
theorem procedure_command_return_shape_witness :
    checkUuidFormat (uuidStr wUuid) = true
    ∧ (isSynchronous (.str "TrUe") = true →
        waitForProcedures
          (runProcedure wUuid (fun s => .ok s) wStBase "_noop").1
          (.str "TrUe") =
          .sync (uuidStr wUuid)
            (runProcedure wUuid (fun s => .ok s) wStBase "_noop").1.log
            (procedureSuccess
              (runProcedure wUuid (fun s => .ok s) wStBase "_noop").1))
    ∧ (isSynchronous (.str "TrUe") = false →
        waitForProcedures
          (runProcedure wUuid (fun s => .ok s) wStBase "_noop").1
          (.str "TrUe") = .async (uuidStr wUuid))
    ∧ (procedureSuccess
        (runProcedure wUuid (fun s => .ok s) wStBase "_noop").1 = true ↔
        ∃ st', (fun (s : FabricState) => (.ok s : Except FabricError
          FabricState)) wStBase = .ok st') :=
  procedure_command_return_shape wUuid (by decide) (fun s => .ok s) wStBase
    "_noop" (.str "TrUe")

/-- C3 counterexample: at the concrete input `"abc"` the code does not raise
a usage error — it accepts the value and selects synchronous execution
(`test_command.py` asserts exactly this), while the predicate the claim
describes rejects `"abc"` as a usage error. -/
theorem synchronous_abc_not_usage_error :
    isSynchronous (.str "abc") = true
    ∧ specSynchronous (.str "abc") = none
    ∧ waitForProcedures ⟨wUuid, []⟩ (.str "abc") =
        .sync (uuidStr wUuid) [] true := by
  refine ⟨by decide, by decide, ?_⟩
  have h : isSynchronous (.str "abc") = true := by decide
  simp [waitForProcedures, h, procedureSuccess]

/-- C3 (amended): the case-insensitive strings `true`/`false`, the integers
`1`/`0` and the booleans select synchronous or asynchronous execution as
described — on every value the spec's predicate accepts, the code agrees with
it — but any other value is accepted rather than being a usage error: a value
selects asynchronous execution exactly when its string form upper-cases to
`"FALSE"` or `"0"`, and any other value, the string `"abc"` included, selects
synchronous execution. -/
theorem synchronous_predicate_behaviour :
    (∀ v b, specSynchronous v = some b → isSynchronous v = b)
    ∧ (∀ s : String, isSynchronous (.str s) = false ↔
        (upperStr s = "FALSE" ∨ upperStr s = "0"))
    ∧ isSynchronous (.bool true) = true
    ∧ isSynchronous (.bool false) = false
    ∧ isSynchronous (.int 1) = true
    ∧ isSynchronous (.int 0) = false
    ∧ isSynchronous (.str "TrUe") = true
    ∧ isSynchronous (.str "False") = false
    ∧ isSynchronous (.str "abc") = true := by
  refine ⟨?_, ?_, by decide, by decide, by decide, by decide, by decide,
    by decide, by decide⟩
  · intro v b hv
    cases v with
    | bool b' =>
      simp only [specSynchronous] at hv
      cases hv
      cases b <;> decide
    | int n =>
      by_cases h1 : n = 1
      · subst h1
        simp [specSynchronous] at hv
        subst hv
        decide
      · by_cases h0 : n = 0
        · subst h0
          simp [specSynchronous] at hv
          subst hv
          decide
        · simp [specSynchronous, h1, h0] at hv
    | str s =>
      by_cases ht : upperStr s = "TRUE"
      · simp only [specSynchronous, if_pos ht] at hv
        cases hv
        simp [isSynchronous, pyStr, ht]
      · by_cases hf : upperStr s = "FALSE"
        · simp only [specSynchronous, if_neg ht, if_pos hf] at hv
          cases hv
          simp [isSynchronous, pyStr, hf]
        · simp [specSynchronous, ht, hf] at hv
  · intro s
    constructor
    · intro h
      by_contra hc
      push_neg at hc
      simp [isSynchronous, pyStr, hc.1, hc.2] at h
    · intro h
      rcases h with h | h <;> simp [isSynchronous, pyStr, h]

/-- Witness for C3's amended theorem: the spec-accepted value `"TrUe"` is
synchronous, and `"abc"` upper-cases to neither `"FALSE"` nor `"0"`, so it is
accepted as synchronous. -/
theorem synchronous_predicate_behaviour_witness :
    isSynchronous (.str "TrUe") = true
    ∧ (isSynchronous (.str "abc") = false ↔
        (upperStr "abc" = "FALSE" ∨ upperStr "abc" = "0")) :=
  ⟨synchronous_predicate_behaviour.1 (.str "TrUe") true (by decide),
   synchronous_predicate_behaviour.2.1 "abc"⟩

/-- Connecting touches only the appended fresh record. -/
theorem Server_connect_append (st : FabricState) (u : UUID)
    (A : List ServerRec) (r : ServerRec) (hs : st.servers = A ++ [r])
    (hr : r.uuid = u) (hA : A.any (fun s => s.uuid = u) = false) :
    Server_connect st u =
      { st with servers := A ++ [{ r with connected := true }] } := by
  unfold Server_connect
  rw [hs, map_update_append A r u (fun s => { s with connected := true }) hr hA]

/-- Disconnecting touches only the appended fresh record. -/
theorem Server_disconnect_append (st : FabricState) (u : UUID)
    (A : List ServerRec) (r : ServerRec) (hs : st.servers = A ++ [r])
    (hr : r.uuid = u) (hA : A.any (fun s => s.uuid = u) = false) :
    Server_disconnect st u =
      { st with servers := A ++ [{ r with connected := false }] } := by
  unfold Server_disconnect
  rw [hs, map_update_append A r u (fun s => { s with connected := false }) hr hA]

/-- Adding to the group touches only the appended fresh record. -/
theorem Group_addServer_append (st : FabricState) (gid : String) (u : UUID)
    (A : List ServerRec) (r : ServerRec) (hs : st.servers = A ++ [r])
    (hr : r.uuid = u) (hA : A.any (fun s => s.uuid = u) = false) :
    Group_addServer st gid u =
      { st with servers := A ++ [{ r with groupId := some gid }] } := by
  unfold Group_addServer
  rw [hs, map_update_append A r u (fun s => { s with groupId := some gid }) hr hA]

/-- Computation rule for a successful `_create_server`: when the address is
reachable, the group exists and does not contain the discovered uuid, no
record with that uuid exists yet and the version is compatible, the handler
commits exactly one new server record — connected unless root privileges were
missing, and a member of the group. -/
theorem create_server_ok_eq (st : FabricState) (gid addr user pw : String)
    (live : LiveServer) (g : GroupRec)
    (hd : discover_live st addr = some live)
    (hg : Group_fetch st gid = some g)
    (hc : Group_containsServer st g live.uuid = false)
    (hn : st.servers.any (fun s => s.uuid = live.uuid) = false)
    (hv : checkVersionCompat live.version (5, 6, 8) = true) :
    _create_server st gid addr user pw = .ok { st with servers :=
      st.servers ++
        [⟨live.uuid, addr, user, pw, live.rootPrivileges, some gid⟩] } := by
  unfold _create_server
  simp only [hd, hg, hc, Bool.false_eq_true, if_false, MySQLServer_add, hn,
    hv, eq_self_iff_true, not_true, if_false]
  cases hrp : live.rootPrivileges with
  | true =>
    rw [if_neg (by simp)]
    rw [Server_connect_append _ live.uuid st.servers
      ⟨live.uuid, addr, user, pw, false, none⟩ rfl rfl hn]
    dsimp only
    rw [Group_addServer_append _ gid live.uuid st.servers
      ⟨live.uuid, addr, user, pw, true, none⟩ rfl rfl hn]
  | false =>
    rw [if_pos (by simp)]
    rw [Server_connect_append _ live.uuid st.servers
      ⟨live.uuid, addr, user, pw, false, none⟩ rfl rfl hn]
    dsimp only
    rw [Server_disconnect_append _ live.uuid st.servers
      ⟨live.uuid, addr, user, pw, true, none⟩ rfl rfl hn]
    dsimp only
    rw [Group_addServer_append _ gid live.uuid st.servers
      ⟨live.uuid, addr, user, pw, false, none⟩ rfl rfl hn]

/-- Inversion of a successful `_create_server`: it can only have committed
under the guards of the handler, and the new state is the old one extended
with exactly one new server record for the discovered uuid. -/
theorem create_server_ok_inv (st st' : FabricState)
    (gid addr user pw : String)
    (h : _create_server st gid addr user pw = .ok st') :
    ∃ live g, discover_live st addr = some live
      ∧ Group_fetch st gid = some g
      ∧ Group_containsServer st g live.uuid = false
      ∧ st.servers.any (fun s => s.uuid = live.uuid) = false
      ∧ checkVersionCompat live.version (5, 6, 8) = true
      ∧ st' = { st with servers := st.servers ++
          [⟨live.uuid, addr, user, pw, live.rootPrivileges, some gid⟩] } := by
  have h0 := h
  unfold _create_server at h
  split at h
  · exact Except.noConfusion h
  · rename_i live hd
    split at h
    · exact Except.noConfusion h
    · rename_i g hg
      split at h
      · exact Except.noConfusion h
      · rename_i hcn
        have hc : Group_containsServer st g live.uuid = false := by
          simpa using hcn
        split at h
        · exact Except.noConfusion h
        · rename_i st₁ hadd
          unfold MySQLServer_add at hadd
          split at hadd
          · exact Except.noConfusion hadd
          · rename_i hnn
            have hn : st.servers.any (fun s => s.uuid = live.uuid) = false := by
              simpa using hnn
            split at h
            · exact Except.noConfusion h
            · rename_i hvn
              have hv : checkVersionCompat live.version (5, 6, 8) = true := by
                simpa using hvn
              refine ⟨live, g, hd, hg, hc, hn, hv, ?_⟩
              have heq := create_server_ok_eq st gid addr user pw live g
                hd hg hc hn hv
              rw [heq] at h0
              exact (Except.ok.injEq _ _).mp h0.symm

/-- The facts about the state a successful `_create_server` commits: the live
map and the groups are untouched, the new record is appended, the group now
contains the discovered uuid and its record is found with the registered
address and credentials. -/
theorem create_server_ok_post (st st' : FabricState)
    (gid addr user pw : String)
    (h : _create_server st gid addr user pw = .ok st') :
    ∃ live g, discover_live st addr = some live
      ∧ discover_live st' addr = some live
      ∧ Group_fetch st gid = some g
      ∧ Group_fetch st' gid = some g
      ∧ g.group_id = gid
      ∧ st'.groups = st.groups
      ∧ st'.servers = st.servers ++
          [⟨live.uuid, addr, user, pw, live.rootPrivileges, some gid⟩]
      ∧ st.servers.any (fun s => s.uuid = live.uuid) = false
      ∧ Group_containsServer st' g live.uuid = true
      ∧ MySQLServer_fetch st' live.uuid =
          some ⟨live.uuid, addr, user, pw, live.rootPrivileges, some gid⟩ := by
  obtain ⟨live, g, hd, hg, hc, hn, hv, hst'⟩ :=
    create_server_ok_inv st st' gid addr user pw h
  subst hst'
  have hgid : g.group_id = gid := by
    have := List.find?_some hg
    simpa using this
  refine ⟨live, g, hd, hd, hg, hg, hgid, rfl, rfl, hn, ?_, ?_⟩
  · simp [Group_containsServer, Group_servers, hgid]
  · unfold MySQLServer_fetch
    have hA : List.find? (fun s => s.uuid = live.uuid) st.servers = none :=
      List.find?_eq_none.mpr (fun x hx => by
        simpa using List.any_eq_false.mp hn x hx)
    rw [show ({ st with servers := st.servers ++
        [⟨live.uuid, addr, user, pw, live.rootPrivileges, some gid⟩] } :
        FabricState).servers = st.servers ++
        [⟨live.uuid, addr, user, pw, live.rootPrivileges, some gid⟩] from rfl]
    rw [find?_append_of_none _ _ _ hA]
    simp [List.find?]

/-- C5: adding the same address to the same group twice fails the second
time: the handler raises a `ServerError` whose message contains
`already exists`, the job rolls back so the state — and hence the group's
membership — is unchanged, and the status row reports `success=false`. -/
theorem duplicate_add_fails (st st' : FabricState)
    (gid addr user pw : String)
    (h : _create_server st gid addr user pw = .ok st') :
    ∃ msg, _create_server st' gid addr user pw = .error (.ServerError msg)
      ∧ (∃ l₁ l₂, msg.toList = l₁ ++ "already exists".toList ++ l₂)
      ∧ (runJob (fun s => _create_server s gid addr user pw) st'
          "_add_server").1 = st'
      ∧ (runJob (fun s => _create_server s gid addr user pw) st'
          "_add_server").2.success = false := by
  obtain ⟨live, g, _hd, hd', _hg, hg', _hgid, _hgroups, _hservers, _hn,
    hc', _hf⟩ := create_server_ok_post st st' gid addr user pw h
  have herr : _create_server st' gid addr user pw = .error (.ServerError
      ("Server (" ++ uuidStr live.uuid ++ ") already exists in group (" ++
        gid ++ ").")) := by
    unfold _create_server
    simp only [hd', hg', hc', if_true]
  refine ⟨_, herr, ⟨("Server (" ++ uuidStr live.uuid ++ ") ").toList,
    (" in group (" ++ gid ++ ").").toList, ?_⟩, ?_, ?_⟩
  · have hmid : (") already exists in group (" : String) =
        ") " ++ "already exists" ++ " in group (" := rfl
    rw [hmid]
    simp [String.toList, String.data_append, List.append_assoc]
  · simp [runJob, herr]
  · simp [runJob, herr]

/-- Witness for C5: adding address `a1` to `G1` twice on the concrete fleet;
the second call fails with `already exists` and leaves the state unchanged. -/
theorem duplicate_add_fails_witness :
    ∃ msg, _create_server wStOne "G1" "a1" "root" "pw" =
        .error (.ServerError msg)
      ∧ (∃ l₁ l₂, msg.toList = l₁ ++ "already exists".toList ++ l₂)
      ∧ (runJob (fun s => _create_server s "G1" "a1" "root" "pw") wStOne
          "_add_server").1 = wStOne
      ∧ (runJob (fun s => _create_server s "G1" "a1" "root" "pw") wStOne
          "_add_server").2.success = false :=
  duplicate_add_fails wStBase wStOne "G1" "a1" "root" "pw" rfl

/-- C6: `group.add` refuses a server whose MySQL version is below the minimum
5.6.8: after discovering the uuid and connecting, the handler raises a
`ServerError` naming the required minimum, the job rolls back, and the server
is not in the group afterwards. -/
theorem add_refuses_outdated_version (st : FabricState)
    (gid addr user pw : String) (live : LiveServer) (g : GroupRec)
    (hd : discover_live st addr = some live)
    (hg : Group_fetch st gid = some g)
    (hc : Group_containsServer st g live.uuid = false)
    (hn : st.servers.any (fun s => s.uuid = live.uuid) = false)
    (hv : checkVersionCompat live.version (5, 6, 8) = false) :
    _create_server st gid addr user pw = .error (.ServerError
      ("Server (" ++ uuidStr live.uuid ++ ") has an outdated version (" ++
        versionStr live.version ++ "). 5.6.8 or greater is required."))
    ∧ (∃ l₁ l₂, ("Server (" ++ uuidStr live.uuid ++
        ") has an outdated version (" ++ versionStr live.version ++
        "). 5.6.8 or greater is required.").toList =
          l₁ ++ "5.6.8".toList ++ l₂)
    ∧ (runJob (fun s => _create_server s gid addr user pw) st
        "_add_server").1 = st
    ∧ (runJob (fun s => _create_server s gid addr user pw) st
        "_add_server").2.success = false
    ∧ Group_containsServer
        ((runJob (fun s => _create_server s gid addr user pw) st
          "_add_server").1) g live.uuid = false := by
  have herr : _create_server st gid addr user pw = .error (.ServerError
      ("Server (" ++ uuidStr live.uuid ++ ") has an outdated version (" ++
        versionStr live.version ++ "). 5.6.8 or greater is required.")) := by
    unfold _create_server
    simp only [hd, hg, hc, Bool.false_eq_true, if_false, MySQLServer_add, hn,
      hv, if_true, not_false_iff]
  refine ⟨herr, ?_, ?_, ?_, ?_⟩
  · refine ⟨String.toList ("Server (" ++ uuidStr live.uuid ++
      ") has an outdated version (" ++ versionStr live.version ++ "). "),
      " or greater is required.".toList, ?_⟩
    have hmid : ("). 5.6.8 or greater is required." : String) =
        "). " ++ "5.6.8" ++ " or greater is required." := rfl
    rw [hmid]
    simp [String.toList, String.data_append, List.append_assoc]
  · simp [runJob, herr]
  · simp [runJob, herr]
  · simp [runJob, herr, hc]

/-- Witness for C6: adding address `a2` (version 5.5.0) to `G1` fails with
the version message and the fleet is unchanged. -/
theorem add_refuses_outdated_version_witness :
    _create_server wStBase "G1" "a2" "root" "pw" = .error (.ServerError
      ("Server (" ++ uuidStr wUuid2 ++ ") has an outdated version (" ++
        versionStr (5, 5, 0) ++ "). 5.6.8 or greater is required."))
    ∧ (∃ l₁ l₂, ("Server (" ++ uuidStr wUuid2 ++
        ") has an outdated version (" ++ versionStr (5, 5, 0) ++
        "). 5.6.8 or greater is required.").toList =
          l₁ ++ "5.6.8".toList ++ l₂)
    ∧ (runJob (fun s => _create_server s "G1" "a2" "root" "pw") wStBase
        "_add_server").1 = wStBase
    ∧ (runJob (fun s => _create_server s "G1" "a2" "root" "pw") wStBase
        "_add_server").2.success = false
    ∧ Group_containsServer
        ((runJob (fun s => _create_server s "G1" "a2" "root" "pw") wStBase
          "_add_server").1) ⟨"G1", some "d", none⟩ wUuid2 = false :=
  add_refuses_outdated_version wStBase "G1" "a2" "root" "pw" wLiveOld
    ⟨"G1", some "d", none⟩ (by decide) (by decide) (by decide) (by decide)
    (by decide)

/-- C9: when the supplied user lacks root privileges on the new server,
`group.add` still succeeds: the handler only warns and disconnects, the
server is added to the group (its record is kept, disconnected), and the
status row reports success. -/
theorem add_without_root_privileges_succeeds (st : FabricState)
    (gid addr user pw : String) (live : LiveServer) (g : GroupRec)
    (hd : discover_live st addr = some live)
    (hg : Group_fetch st gid = some g)
    (hc : Group_containsServer st g live.uuid = false)
    (hn : st.servers.any (fun s => s.uuid = live.uuid) = false)
    (hv : checkVersionCompat live.version (5, 6, 8) = true)
    (hroot : live.rootPrivileges = false) :
    _create_server st gid addr user pw = .ok { st with servers :=
      st.servers ++ [⟨live.uuid, addr, user, pw, false, some gid⟩] }
    ∧ Group_containsServer { st with servers :=
        st.servers ++ [⟨live.uuid, addr, user, pw, false, some gid⟩] } g
        live.uuid = true
    ∧ MySQLServer_fetch { st with servers :=
        st.servers ++ [⟨live.uuid, addr, user, pw, false, some gid⟩] }
        live.uuid = some ⟨live.uuid, addr, user, pw, false, some gid⟩
    ∧ (runJob (fun s => _create_server s gid addr user pw) st
        "_add_server").2.success = true := by
  have hok := create_server_ok_eq st gid addr user pw live g hd hg hc hn hv
  rw [hroot] at hok
  obtain ⟨live', g', hd2, _, hg2, hg2', hgid, _, _, _, hcont, hfetch⟩ :=
    create_server_ok_post st _ gid addr user pw hok
  rw [hd] at hd2
  injection hd2 with hlive
  subst hlive
  rw [hg] at hg2
  injection hg2 with hgg
  subst hgg
  rw [hroot] at hfetch
  exact ⟨hok, hcont, hfetch, by simp [runJob, hok]⟩

/-- Witness for C9: adding address `a3` (recent version, no root privileges)
to `G1` succeeds; the record is kept disconnected and in the group. -/
theorem add_without_root_privileges_succeeds_witness :
    _create_server wStBase "G1" "a3" "root" "pw" = .ok { wStBase with
      servers := wStBase.servers ++
        [⟨wUuid2, "a3", "root", "pw", false, some "G1"⟩] }
    ∧ Group_containsServer { wStBase with servers := wStBase.servers ++
        [⟨wUuid2, "a3", "root", "pw", false, some "G1"⟩] }
        ⟨"G1", some "d", none⟩ wUuid2 = true
    ∧ MySQLServer_fetch { wStBase with servers := wStBase.servers ++
        [⟨wUuid2, "a3", "root", "pw", false, some "G1"⟩] } wUuid2 =
        some ⟨wUuid2, "a3", "root", "pw", false, some "G1"⟩
    ∧ (runJob (fun s => _create_server s "G1" "a3" "root" "pw") wStBase
        "_add_server").2.success = true :=
  add_without_root_privileges_succeeds wStBase "G1" "a3" "root" "pw"
    wLiveNoRoot ⟨"G1", some "d", none⟩ (by decide) (by decide) (by decide)
    (by decide) (by decide) (by decide)

/-- Inversion of a successful `_remove_server`: the group existed, contained
the uuid, the uuid was not its master, a record for it existed, and the new
state is the old one with the record detached, deleted and its pool entries
purged. -/
theorem remove_server_ok_inv (st st' : FabricState) (gid : String) (u : UUID)
    (h : _remove_server st gid u = .ok st') :
    ∃ g s, Group_fetch st gid = some g
      ∧ Group_containsServer st g u = true
      ∧ ¬ g.master = some u
      ∧ MySQLServer_fetch st u = some s
      ∧ s.uuid = u
      ∧ st' = purgeConnections (_do_remove_server st u) u := by
  unfold _remove_server at h
  split at h
  · exact Except.noConfusion h
  · rename_i g hg
    split at h
    · exact Except.noConfusion h
    · rename_i hcn
      have hc : Group_containsServer st g u = true := by
        cases hb : Group_containsServer st g u with
        | true => rfl
        | false => exact absurd (by simp [hb]) (fun hq => hcn hq)
      split at h
      · exact Except.noConfusion h
      · rename_i hm
        split at h
        · exact Except.noConfusion h
        · rename_i s hs
          have hsu : s.uuid = u := by
            have := List.find?_some hs
            simpa using this
          refine ⟨g, s, hg, hc, hm, hs, hsu, ?_⟩
          rw [hsu] at h
          exact ((Except.ok.injEq _ _).mp h).symm

/-- Every server listed as a member belongs to the state's server table. -/
theorem Group_servers_subset (st : FabricState) (g : GroupRec)
    (s : ServerRec) (hs : s ∈ Group_servers st g) : s ∈ st.servers :=
  (List.mem_filter.mp hs).1

/-- After `_do_remove_server`, no member of any group carries the removed
uuid: the record was deleted. -/
theorem do_remove_server_no_record (st : FabricState) (u : UUID)
    (s : ServerRec) (hs : s ∈ (_do_remove_server st u).servers) :
    ¬ s.uuid = u := by
  unfold _do_remove_server MySQLServer_remove Group_removeServer at hs
  simp only [List.mem_filter] at hs
  simpa using hs.2

/-- C7: after a successful `group.add` of a server to a group, the
`group.lookup_servers` listing is the rendered member rows and contains the
row `(uuid string, address, is_master)` of the new server; after a successful
`group.remove` of that server, the listing is again the rendered member rows
and no member carries the server's uuid. -/
theorem add_remove_reflected_in_lookup (st st' : FabricState)
    (gid addr user pw : String)
    (h : _create_server st gid addr user pw = .ok st') :
    ∃ live g, discover_live st addr = some live
      ∧ Group_fetch st' gid = some g
      ∧ _lookup_servers st' gid none =
          .ok (.list ((Group_servers st' g).map (serverRow g)))
      ∧ (uuidStr live.uuid, addr, decide (g.master = some live.uuid)) ∈
          (Group_servers st' g).map (serverRow g)
      ∧ (∀ st'', _remove_server st' gid live.uuid = .ok st'' →
          Group_fetch st'' gid = some g
          ∧ _lookup_servers st'' gid none =
              .ok (.list ((Group_servers st'' g).map (serverRow g)))
          ∧ ∀ s ∈ Group_servers st'' g, ¬ s.uuid = live.uuid) := by
  obtain ⟨live, g, hd, _hd', hg, hg', hgid, _hgroups, hservers, _hn, _hc',
    _hf⟩ := create_server_ok_post st st' gid addr user pw h
  refine ⟨live, g, hd, hg', ?_, ?_, ?_⟩
  · unfold _lookup_servers
    rw [hg']
  · have hmem : (⟨live.uuid, addr, user, pw, live.rootPrivileges, some gid⟩ :
        ServerRec) ∈ Group_servers st' g := by
      unfold Group_servers
      rw [hservers]
      simp [hgid]
    have := List.mem_map_of_mem (serverRow g) hmem
    simpa [serverRow] using this
  · intro st'' hrem
    obtain ⟨g₂, s₂, hg₂, _hc₂, _hm₂, _hs₂, _hsu₂, hst''⟩ :=
      remove_server_ok_inv st' st'' gid live.uuid hrem
    have hgfetch : Group_fetch st'' gid = some g := by
      rw [hst'']
      exact hg'
    refine ⟨hgfetch, ?_, ?_⟩
    · unfold _lookup_servers
      rw [hgfetch]
    · intro s hs
      have hmem := Group_servers_subset st'' g s hs
      rw [hst''] at hmem
      exact do_remove_server_no_record st' live.uuid s hmem

/-- Witness for C7 on the concrete fleet: add `a1` to `G1`, observe its row
in the listing, remove it, observe its absence. -/
theorem add_remove_reflected_in_lookup_witness :
    ∃ live g, discover_live wStBase "a1" = some live
      ∧ Group_fetch wStOne "G1" = some g
      ∧ _lookup_servers wStOne "G1" none =
          .ok (.list ((Group_servers wStOne g).map (serverRow g)))
      ∧ (uuidStr live.uuid, "a1", decide (g.master = some live.uuid)) ∈
          (Group_servers wStOne g).map (serverRow g)
      ∧ (∀ st'', _remove_server wStOne "G1" live.uuid = .ok st'' →
          Group_fetch st'' "G1" = some g
          ∧ _lookup_servers st'' "G1" none =
              .ok (.list ((Group_servers st'' g).map (serverRow g)))
          ∧ ∀ s ∈ Group_servers st'' g, ¬ s.uuid = live.uuid) :=
  add_remove_reflected_in_lookup wStBase wStOne "G1" "a1" "root" "pw" rfl

/-- C10: after a successful `group.add`, `group.lookup_servers(G, u)` returns
the single-server record exposing the stored credentials — uuid string,
address, user name and plain-text password as registered — and for a uuid the
group does not contain it raises a `GroupError`. -/
theorem lookup_server_exposes_credentials (st st' : FabricState)
    (gid addr user pw : String)
    (h : _create_server st gid addr user pw = .ok st') :
    (∃ live, discover_live st addr = some live
      ∧ _lookup_servers st' gid (some live.uuid) =
          .ok (.single (uuidStr live.uuid) addr user pw))
    ∧ (∀ g u, Group_fetch st gid = some g →
        Group_containsServer st g u = false →
        _lookup_servers st gid (some u) = .error (.GroupError
          ("Group (" ++ gid ++ ") does not contain server (" ++ uuidStr u ++
            ")."))) := by
  obtain ⟨live, g, hd, _hd', _hg, hg', _hgid, _hgroups, _hservers, _hn, hc',
    hf⟩ := create_server_ok_post st st' gid addr user pw h
  constructor
  · refine ⟨live, hd, ?_⟩
    unfold _lookup_servers
    rw [hg']
    simp only [hc', if_true, hf]
  · intro g₀ u hg₀ hc₀
    unfold _lookup_servers
    rw [hg₀]
    simp only [hc₀, Bool.false_eq_true, if_false]

/-- Witness for C10 on the concrete fleet: the lookup of the added server
returns its user and plain-text password; a lookup of a uuid not in the
group fails. -/
theorem lookup_server_exposes_credentials_witness :
    (∃ live, discover_live wStBase "a1" = some live
      ∧ _lookup_servers wStOne "G1" (some live.uuid) =
          .ok (.single (uuidStr live.uuid) "a1" "root" "pw"))
    ∧ (∀ g u, Group_fetch wStBase "G1" = some g →
        Group_containsServer wStBase g u = false →
        _lookup_servers wStBase "G1" (some u) = .error (.GroupError
          ("Group (G1) does not contain server (" ++ uuidStr u ++ ")."))) :=
  lookup_server_exposes_credentials wStBase wStOne "G1" "a1" "root" "pw" rfl

/-- C8: after a successful `group.create(G1, d)`, the `group.lookup_groups()`
listing is the rendered group records and contains `(G1, d)`, a lookup of
`G1` returns its record, and a lookup of a group id that does not exist
raises a `GroupError`. -/
theorem create_group_reflected_in_lookup (st st' : FabricState)
    (gid : String) (descr : Option String) (gid₂ : String)
    (h : _create_group st gid descr = .ok st') :
    _lookup_groups st' none = .ok (.list (Group_groups st'))
    ∧ (gid, descr.getD "") ∈ Group_groups st'
    ∧ _lookup_groups st' (some gid) = .ok (.single gid (descr.getD ""))
    ∧ (Group_fetch st gid₂ = none →
        _lookup_groups st (some gid₂) = .error (.GroupError
          ("Group (" ++ gid₂ ++ ") does not exist."))) := by
  unfold _create_group Group_add at h
  split at h
  · exact Except.noConfusion h
  · rename_i st₁ g₁ heq
    split at heq
    · exact Except.noConfusion heq
    · rename_i hnn
      have hn : st.groups.any (fun g => g.group_id = gid) = false := by
        simpa using hnn
      have hpair := (Except.ok.injEq _ _).mp heq
      have hst₁ : st₁ = { st with groups :=
          st.groups ++ [⟨gid, descr, none⟩] } := by
        have := congrArg Prod.fst hpair
        simpa using this.symm
      subst hst₁
      have hst' : st' = detectorRegister { st with groups :=
          st.groups ++ [⟨gid, descr, none⟩] } gid :=
        ((Except.ok.injEq _ _).mp h).symm
      subst hst'
      have hgroups : (detectorRegister { st with groups :=
          st.groups ++ [⟨gid, descr, none⟩] } gid).groups =
          st.groups ++ [⟨gid, descr, none⟩] := rfl
      refine ⟨rfl, ?_, ?_, ?_⟩
      · unfold Group_groups
        rw [hgroups]
        simp
      · have hfetch : Group_fetch (detectorRegister { st with groups :=
            st.groups ++ [⟨gid, descr, none⟩] } gid) gid =
            some ⟨gid, descr, none⟩ := by
          unfold Group_fetch
          rw [hgroups]
          rw [find?_append_of_none _ _ _ (List.find?_eq_none.mpr
            (fun x hx => by simpa using List.any_eq_false.mp hn x hx))]
          simp [List.find?]
        simp only [_lookup_groups, hfetch]
      · intro hnone
        simp only [_lookup_groups, hnone]

/-- Witness for C8 on the concrete fleet: create `G2` with description `d2`
on the base fleet and look it up; looking up the absent `NOPE` fails. -/
theorem create_group_reflected_in_lookup_witness :
    _lookup_groups (detectorRegister { wStBase with groups :=
        wStBase.groups ++ [⟨"G2", some "d2", none⟩] } "G2") none =
      .ok (.list (Group_groups (detectorRegister { wStBase with groups :=
        wStBase.groups ++ [⟨"G2", some "d2", none⟩] } "G2")))
    ∧ ("G2", (some "d2").getD "") ∈ Group_groups (detectorRegister
        { wStBase with groups := wStBase.groups ++ [⟨"G2", some "d2", none⟩] }
        "G2")
    ∧ _lookup_groups (detectorRegister { wStBase with groups :=
        wStBase.groups ++ [⟨"G2", some "d2", none⟩] } "G2") (some "G2") =
      .ok (.single "G2" ((some "d2").getD ""))
    ∧ (Group_fetch wStBase "NOPE" = none →
        _lookup_groups wStBase (some "NOPE") = .error (.GroupError
          ("Group (NOPE) does not exist."))) := by
  have h := create_group_reflected_in_lookup wStBase (detectorRegister
    { wStBase with groups := wStBase.groups ++ [⟨"G2", some "d2", none⟩] }
    "G2") "G2" (some "d2") "NOPE" rfl
  simpa using h

/-- The uuids collected by the removal loop are the members' uuids in
listing order. -/
theorem removeServersLoop_uuids (l : List ServerRec) :
    ∀ st : FabricState, (removeServersLoop st l).2 =
      l.map (fun s => s.uuid) := by
  induction l with
  | nil => intro st; rfl
  | cons s rest ih =>
    intro st
    simp only [removeServersLoop, List.map_cons]
    rw [ih]

/-- The removal loop touches only the server table. -/
theorem removeServersLoop_fields (l : List ServerRec) :
    ∀ st : FabricState, (removeServersLoop st l).1.groups = st.groups
      ∧ (removeServersLoop st l).1.pool = st.pool
      ∧ (removeServersLoop st l).1.detectorGroups = st.detectorGroups := by
  induction l with
  | nil => intro st; exact ⟨rfl, rfl, rfl⟩
  | cons s rest ih =>
    intro st
    simp only [removeServersLoop]
    exact ih (_do_remove_server st s.uuid)

/-- Removal via `_do_remove_server` never resurrects a record: a uuid absent before is
absent after. -/
theorem do_remove_server_preserves_none (st : FabricState) (u u' : UUID)
    (h : MySQLServer_fetch st u' = none) :
    MySQLServer_fetch (_do_remove_server st u) u' = none := by
  have helem := List.find?_eq_none.mp h
  apply List.find?_eq_none.mpr
  intro s hs
  unfold _do_remove_server MySQLServer_remove Group_removeServer at hs
  simp only [List.mem_filter, List.mem_map] at hs
  obtain ⟨⟨t, ht, hts⟩, _⟩ := hs.imp_left id
  have huuid : s.uuid = t.uuid := by
    by_cases hc : t.uuid = u <;> simp [← hts, hc]
  have := helem t ht
  simpa [huuid] using this

/-- Removal via `_do_remove_server` deletes the record of the removed uuid. -/
theorem do_remove_server_fetch_none (st : FabricState) (u : UUID) :
    MySQLServer_fetch (_do_remove_server st u) u = none := by
  apply List.find?_eq_none.mpr
  intro s hs
  simpa using do_remove_server_no_record st u s hs

/-- The removal loop never resurrects a record. -/
theorem removeServersLoop_preserves_none (l : List ServerRec) :
    ∀ (st : FabricState) (u : UUID), MySQLServer_fetch st u = none →
      MySQLServer_fetch (removeServersLoop st l).1 u = none := by
  induction l with
  | nil => intro st u h; exact h
  | cons s rest ih =>
    intro st u h
    simp only [removeServersLoop]
    exact ih _ u (do_remove_server_preserves_none st s.uuid u h)

/-- After the removal loop, no listed member's record survives. -/
theorem removeServersLoop_removes (l : List ServerRec) :
    ∀ (st : FabricState) (s : ServerRec), s ∈ l →
      MySQLServer_fetch (removeServersLoop st l).1 s.uuid = none := by
  induction l with
  | nil => intro _ _ h; exact absurd h (List.not_mem_nil _)
  | cons t rest ih =>
    intro st s hs
    simp only [removeServersLoop]
    rcases List.mem_cons.mp hs with heq | hmem
    · subst heq
      exact removeServersLoop_preserves_none rest _ s.uuid
        (do_remove_server_fetch_none st s.uuid)
    · exact ih _ s hmem

/-- Purging via `purge_connections` leaves no pool entry of the purged uuid. -/
theorem purgeConnections_pool_self (st : FabricState) (u : UUID)
    (p : UUID × Nat) (hp : p ∈ (purgeConnections st u).pool) : ¬ p.1 = u := by
  unfold purgeConnections at hp
  simpa using (List.mem_filter.mp hp).2

/-- Purging via `purge_connections` only removes pool entries. -/
theorem purgeConnections_pool_mono (st : FabricState) (u : UUID)
    (p : UUID × Nat) (hp : p ∈ (purgeConnections st u).pool) :
    p ∈ st.pool :=
  (List.mem_filter.mp hp).1

/-- Folding purges only removes pool entries. -/
theorem foldl_purge_pool_mono (l : List UUID) :
    ∀ (st : FabricState) (p : UUID × Nat),
      p ∈ (l.foldl purgeConnections st).pool → p ∈ st.pool := by
  induction l with
  | nil => intro st p hp; exact hp
  | cons u rest ih =>
    intro st p hp
    exact purgeConnections_pool_mono st u p (ih (purgeConnections st u) p hp)

/-- After folding purges over a uuid list, no pool entry of any listed uuid
survives. -/
theorem foldl_purge_pool_all (l : List UUID) :
    ∀ (st : FabricState) (u : UUID), u ∈ l →
      ∀ p ∈ (l.foldl purgeConnections st).pool, ¬ p.1 = u := by
  induction l with
  | nil => intro _ _ h; exact absurd h (List.not_mem_nil _)
  | cons v rest ih =>
    intro st u hu p hp
    simp only [List.foldl_cons] at hp
    rcases List.mem_cons.mp hu with heq | hmem
    · subst heq
      exact purgeConnections_pool_self st u p
        (foldl_purge_pool_mono rest (purgeConnections st u) p hp)
    · exact ih (purgeConnections st v) u hmem p hp

/-- Folding purges touches only the pool. -/
theorem foldl_purge_fields (l : List UUID) :
    ∀ st : FabricState, (l.foldl purgeConnections st).groups = st.groups
      ∧ (l.foldl purgeConnections st).servers = st.servers
      ∧ (l.foldl purgeConnections st).detectorGroups = st.detectorGroups := by
  induction l with
  | nil => intro st; exact ⟨rfl, rfl, rfl⟩
  | cons u rest ih =>
    intro st
    exact ih (purgeConnections st u)

/-- Fetching via `MySQLServer.fetch` reads only the server table. -/
theorem MySQLServer_fetch_congr (st₁ st₂ : FabricState) (u : UUID)
    (h : st₁.servers = st₂.servers) :
    MySQLServer_fetch st₁ u = MySQLServer_fetch st₂ u := by
  unfold MySQLServer_fetch
  rw [h]

/-- Fetching via `Group.fetch` reads only the group table. -/
theorem Group_fetch_congr (st₁ st₂ : FabricState) (gid : String)
    (h : st₁.groups = st₂.groups) :
    Group_fetch st₁ gid = Group_fetch st₂ gid := by
  unfold Group_fetch
  rw [h]

/-- C2: `group.destroy(group_id, force)` raises a `GroupError` when the group
does not exist and when it has servers while `force` is unset; with `force`
set it commits a state in which the group record is gone, every member
server's record is gone, no pool entry of any member survives, and the group
is no longer registered with the failure detector. -/
theorem destroy_group_behaviour (st : FabricState) (gid : String)
    (force : Bool) :
    (Group_fetch st gid = none →
      _remove_group st gid force = .error (.GroupError
        ("Group (" ++ gid ++ ") does not exist.")))
    ∧ (∀ g, Group_fetch st gid = some g → force = false →
        (Group_servers st g).isEmpty = false →
        _remove_group st gid force = .error (.GroupError
          ("Group (" ++ gid ++ ") is not empty.")))
    ∧ (∀ g, Group_fetch st gid = some g → force = true →
        ∃ st', _remove_group st gid force = .ok st'
          ∧ Group_fetch st' gid = none
          ∧ (∀ s ∈ Group_servers st g, MySQLServer_fetch st' s.uuid = none)
          ∧ (∀ s ∈ Group_servers st g, ∀ p ∈ st'.pool, ¬ p.1 = s.uuid)
          ∧ gid ∉ st'.detectorGroups) := by
  refine ⟨?_, ?_, ?_⟩
  · intro h
    unfold _remove_group
    rw [h]
  · intro g hg hf hne
    subst hf
    unfold _remove_group
    simp only [hg]
    rw [if_neg (by simp)]
    rw [if_pos (by simp [hne])]
  · intro g hg hf
    subst hf
    unfold _remove_group
    simp only [hg]
    by_cases hemp : (Group_servers st g).isEmpty
    · have hnil : Group_servers st g = [] := List.isEmpty_iff.mp hemp
      rw [if_neg (by simp [hemp])]
      rw [if_neg (by simp [hemp])]
      refine ⟨_, rfl, ?_, ?_, ?_, ?_⟩
      · unfold Group_fetch detectorUnregister Group_remove
        apply List.find?_eq_none.mpr
        intro g' hg'
        simpa using (List.mem_filter.mp hg').2
      · intro s hs
        rw [hnil] at hs
        exact absurd hs (List.not_mem_nil _)
      · intro s hs
        rw [hnil] at hs
        exact absurd hs (List.not_mem_nil _)
      · unfold detectorUnregister Group_remove
        intro hmem
        simpa using (List.mem_filter.mp hmem).2
    · rw [if_pos (by simp [hemp])]
      refine ⟨_, rfl, ?_, ?_, ?_, ?_⟩
      · have h1 : Group_fetch (detectorUnregister
            ((removeServersLoop st (Group_servers st g)).2.foldl
              purgeConnections (Group_remove (removeServersLoop st
                (Group_servers st g)).1 gid)) gid) gid =
            Group_fetch (Group_remove (removeServersLoop st
              (Group_servers st g)).1 gid) gid :=
          Group_fetch_congr _ _ gid ((foldl_purge_fields _ _).1)
        rw [h1]
        unfold Group_fetch Group_remove
        apply List.find?_eq_none.mpr
        intro g' hg'
        simpa using (List.mem_filter.mp hg').2
      · intro s hs
        have hserv : ((removeServersLoop st (Group_servers st g)).2.foldl
            purgeConnections (Group_remove (removeServersLoop st
              (Group_servers st g)).1 gid)).servers =
            (removeServersLoop st (Group_servers st g)).1.servers :=
          (foldl_purge_fields _ _).2.1
        have hfetch := removeServersLoop_removes (Group_servers st g) st s hs
        calc MySQLServer_fetch (detectorUnregister
              ((removeServersLoop st (Group_servers st g)).2.foldl
                purgeConnections (Group_remove (removeServersLoop st
                  (Group_servers st g)).1 gid)) gid) s.uuid
            = MySQLServer_fetch
              (removeServersLoop st (Group_servers st g)).1 s.uuid := by
              apply MySQLServer_fetch_congr
              exact hserv
          _ = none := hfetch
      · intro s hs p hp
        have hu : s.uuid ∈ (removeServersLoop st (Group_servers st g)).2 := by
          rw [removeServersLoop_uuids]
          exact List.mem_map_of_mem _ hs
        have hpool : p ∈ ((removeServersLoop st (Group_servers st g)).2.foldl
            purgeConnections (Group_remove (removeServersLoop st
              (Group_servers st g)).1 gid)).pool := hp
        exact foldl_purge_pool_all _ _ s.uuid hu p hpool
      · unfold detectorUnregister
        intro hmem
        simpa using (List.mem_filter.mp hmem).2

/-- Witness for C2: destroying `G1` with `force` on the concrete fleet in
which `G1` holds one server (the master) removes the group, the server
record, its pool entries and the detector registration. -/
theorem destroy_group_behaviour_witness :
    ∃ st', _remove_group wStMaster "G1" true = .ok st'
      ∧ Group_fetch st' "G1" = none
      ∧ (∀ s ∈ Group_servers wStMaster ⟨"G1", some "d", some wUuid⟩,
          MySQLServer_fetch st' s.uuid = none)
      ∧ (∀ s ∈ Group_servers wStMaster ⟨"G1", some "d", some wUuid⟩,
          ∀ p ∈ st'.pool, ¬ p.1 = s.uuid)
      ∧ "G1" ∉ st'.detectorGroups :=
  (destroy_group_behaviour wStMaster "G1" true).2.2
    ⟨"G1", some "d", some wUuid⟩ (by decide) rfl

end Fabric
